import Mathlib

/-!
Shallow embedding of the dynamic-schema persistence core of `src/app.py`
(functions `create_table_if_not_exists`, `add_missing_columns`,
`insert_summary`, and the statistics-flattening loop in `main`), together
with a model of the MySQL store the code talks to.

Store model notes:
- A table is a list of column names plus a list of rows; each row maps a
  position in the column list to an optional value (NULL = `none`).
- MySQL column names are case-insensitive, so the store rejects an
  `ALTER TABLE ... ADD COLUMN` whose name differs only in case from an
  existing column, and matches insert-list columns case-insensitively.
- The Python-level membership test in `add_missing_columns`
  (`col not in existing_columns`) is exact string comparison; this is kept
  distinct from the store's case-insensitive semantics.
-/

/-- A SQL value as handled by the code: strings (filename, the formatted
timestamp) and floats.  Floats are modelled as finite numbers (an integer
scaled model suffices for the claims) plus the non-finite IEEE values
`nan`, `inf`, `-inf`, which `pandas.describe` can genuinely produce
(e.g. the std of a single-row series is NaN). -/
inductive Val where
  | str : String → Val
  | num : Int → Val
  | nan : Val
  | inf : Val
  | ninf : Val
deriving DecidableEq, Repr

/-- Whether a value is a finite number or a string (i.e. not NaN/±Infinity). -/
def Val.isFinite : Val → Bool
  | .nan => false
  | .inf => false
  | .ninf => false
  | _ => true

/-- State of the `summary_imports` table: its column list (in order) and its
rows, each row aligned positionally with the column list. -/
structure TableState where
  columns : List String
  rows : List (List (Option Val))
deriving DecidableEq, Repr

/-- Store-level errors surfaced by MySQL for the statements the code issues. -/
inductive DbError where
  | duplicateColumn : String → DbError
  | unknownColumn : String → DbError
  | columnSpecifiedTwice : DbError
  | paramCountMismatch : DbError
deriving DecidableEq, Repr

/-- Lower-casing by mapping `Char.toLower` over the characters (the
character-list form of `String.toLower`, which the kernel can evaluate). -/
def lowerStr (s : String) : String := ⟨s.data.map Char.toLower⟩

/-- MySQL identifier comparison: column names are case-insensitive. -/
def sameIdent (a b : String) : Bool := lowerStr a == lowerStr b

/-- Whether the table has a column with the given name (MySQL semantics,
case-insensitive). -/
def hasColumn (st : TableState) (c : String) : Bool :=
  st.columns.any (fun x => sameIdent x c)

/-- `create_table_if_not_exists` (src/app.py lines 50-58): creates the table
with fixed columns `id`, `filename`, `timestamp` when absent, no-op when
present. -/
def create_table_if_not_exists (db : Option TableState) : TableState :=
  match db with
  | some st => st
  | none => { columns := ["id", "filename", "timestamp"], rows := [] }

/-- A freshly bootstrapped empty table. -/
def freshTable : TableState := create_table_if_not_exists none

/-- `col_safe = f"`{col}`"` (src/app.py line 67): the raw key wrapped in
backticks, with no validation and no escaping of embedded backticks. -/
def quoteIdent (col : String) : String := "`" ++ col ++ "`"

/-- The DDL string built at src/app.py line 68:
`f"ALTER TABLE summary_imports ADD COLUMN {col_safe} FLOAT"`. -/
def alterStmt (col : String) : String :=
  "ALTER TABLE summary_imports ADD COLUMN " ++ quoteIdent col ++ " FLOAT"

/-- Store effect of `ADD COLUMN`: appends the column; existing rows read the
new column as NULL.  Fails with a duplicate-column error when a column of
that name (case-insensitively) already exists. -/
def addColumn (st : TableState) (c : String) : TableState :=
  { columns := st.columns ++ [c], rows := st.rows.map (fun r => r ++ [none]) }

/-- Execute one `ALTER TABLE summary_imports ADD COLUMN ... FLOAT` against
the live table state. -/
def execAlter (st : TableState) (c : String) : Except DbError TableState :=
  if hasColumn st c then .error (.duplicateColumn c) else .ok (addColumn st c)

/-- The per-key loop of `add_missing_columns` (src/app.py lines 65-68): the
snapshot `existing_columns` is fixed once (from `SHOW COLUMNS`), membership
is tested by exact Python string equality against that snapshot, and each
missing key triggers one ALTER against the live state.  Returns the list of
DDL statements issued (in order, including one that failed) together with
the outcome; an ALTER failure propagates as an uncaught exception, so later
keys are not processed. -/
def provisionLoop (snapshot : List String) :
    List String → TableState → List String × Except DbError TableState
  | [], st => ([], .ok st)
  | c :: rest, st =>
    if snapshot.contains c then provisionLoop snapshot rest st
    else
      match execAlter st c with
      | .error e => ([alterStmt c], .error e)
      | .ok st1 =>
        match provisionLoop snapshot rest st1 with
        | (tr, res) => (alterStmt c :: tr, res)

/-- `add_missing_columns` (src/app.py lines 60-68): reads `SHOW COLUMNS`
into a snapshot, then runs the provisioning loop against that snapshot. -/
def add_missing_columns (st : TableState) (summary_columns : List String) :
    List String × Except DbError TableState :=
  provisionLoop st.columns summary_columns st

/-- A parameterized insert statement: the column list and bound parameter
list handed to `cursor.execute(sql, values)`, plus the SQL text itself. -/
structure InsertStmt where
  cols : List String
  params : List Val
  sql : String
deriving DecidableEq, Repr

/-- `", ".join(xs)` -/
def joinComma (xs : List String) : String := String.intercalate ", " xs

/-- `insert_summary` (src/app.py lines 70-78):
`columns = ["filename", "timestamp"] + list(summary_dict.keys())`,
`values = [file_name, timestamp] + list(summary_dict.values())`,
backtick-quoted column list, one `%s` placeholder per value, and the values
passed to `cursor.execute` as bound parameters. -/
def insert_summary (file_name : String) (timestamp : String)
    (summary_dict : List (String × Val)) : InsertStmt :=
  let columns := ["filename", "timestamp"] ++ summary_dict.map Prod.fst
  let values := [Val.str file_name, Val.str timestamp] ++ summary_dict.map Prod.snd
  let col_str := joinComma (columns.map quoteIdent)
  let placeholders := joinComma (List.replicate values.length "%s")
  { cols := columns
    params := values
    sql := "INSERT INTO summary_imports (" ++ col_str ++ ") VALUES ("
             ++ placeholders ++ ")" }

/-- The bound parameter for a given table column, if the column appears in
the statement's column list (MySQL matches names case-insensitively). -/
def lookupParam (stmt : InsertStmt) (c : String) : Option Val :=
  match (stmt.cols.zip stmt.params).find? (fun p => sameIdent p.1 c) with
  | some p => some p.2
  | none => none

/-- The new row produced by executing an insert: mentioned columns take
their bound parameter, all other columns (including auto-increment `id`)
are modelled as `none`. -/
def mkRow (tableCols : List String) (stmt : InsertStmt) : List (Option Val) :=
  tableCols.map (fun c => lookupParam stmt c)

/-- Store effect of executing the parameterized insert: rejects a
parameter/column count mismatch, an unknown column, or a column listed
twice; otherwise appends exactly one row. -/
def execInsert (st : TableState) (stmt : InsertStmt) : Except DbError TableState :=
  if stmt.params.length ≠ stmt.cols.length then .error .paramCountMismatch
  else
    match stmt.cols.find? (fun c => !(hasColumn st c)) with
    | some c => .error (.unknownColumn c)
    | none =>
      if stmt.cols.any (fun c => 2 ≤ stmt.cols.countP (fun x => sameIdent x c)) then
        .error .columnSpecifiedTwice
      else .ok { columns := st.columns, rows := st.rows ++ [mkRow st.columns stmt] }

/-- Python dict assignment `d[k] = v`: updates in place when the key exists
(keeping its position), otherwise appends. -/
def dictSet (d : List (String × Val)) (k : String) (v : Val) : List (String × Val) :=
  if d.any (fun p => p.1 == k) then
    d.map (fun p => if p.1 == k then (k, v) else p)
  else d ++ [(k, v)]

/-- The flattening loop of `main` (src/app.py lines 150-154):
`flat_summary[f"{stat}_{col}"] = float(val)` over the per-series statistics;
`float(val)` converts a numpy float to a Python float and preserves
NaN/Infinity, so values pass through unchanged. -/
def flattenSummary (summary : List (String × List (String × Val))) :
    List (String × Val) :=
  summary.foldl
    (fun acc p => p.2.foldl (fun acc2 q => dictSet acc2 (q.1 ++ "_" ++ p.1) q.2) acc)
    []

/-- Number of semicolons at the top level of a SQL string, i.e. outside
backtick-quoted identifier regions; a value of zero means the text cannot
be read as multiple statements. -/
def countTopSemis (s : String) : Nat :=
  (s.toList.foldl
    (fun st c =>
      if c.toNat == 96 then (!st.1, st.2)
      else if c == ';' && !st.1 then (st.1, st.2 + 1)
      else st)
    ((false, 0) : Bool × Nat)).2

/-! ## Helper lemmas -/

/-- Equation lemma: the provisioning loop on an empty key list. -/
theorem provisionLoop_nil (snapshot : List String) (st : TableState) :
    provisionLoop snapshot [] st = ([], .ok st) := rfl

/-- Equation lemma: a key found in the snapshot is skipped. -/
theorem provisionLoop_cons_skip (snapshot : List String) (c : String)
    (rest : List String) (st : TableState) (hc : snapshot.contains c = true) :
    provisionLoop snapshot (c :: rest) st = provisionLoop snapshot rest st := by
  have hm : c ∈ snapshot := by simpa using hc
  simp [provisionLoop, hm]

/-- Equation lemma: a failing ALTER aborts the loop with that error. -/
theorem provisionLoop_cons_err (snapshot : List String) (c : String)
    (rest : List String) (st : TableState) (e : DbError)
    (hc : snapshot.contains c = false) (he : execAlter st c = .error e) :
    provisionLoop snapshot (c :: rest) st = ([alterStmt c], .error e) := by
  have hm : c ∉ snapshot := by simpa using hc
  simp [provisionLoop, hm, he]

/-- Equation lemma: a successful ALTER records its statement and continues
on the updated state. -/
theorem provisionLoop_cons_ok (snapshot : List String) (c : String)
    (rest : List String) (st st1 : TableState)
    (hc : snapshot.contains c = false) (he : execAlter st c = .ok st1) :
    provisionLoop snapshot (c :: rest) st =
      (alterStmt c :: (provisionLoop snapshot rest st1).1,
       (provisionLoop snapshot rest st1).2) := by
  have hm : c ∉ snapshot := by simpa using hc
  rcases hp : provisionLoop snapshot rest st1 with ⟨tr, res⟩
  simp [provisionLoop, hm, he, hp]

/-- A successful ALTER appends exactly the requested column. -/
theorem execAlter_ok (st st1 : TableState) (c : String)
    (he : execAlter st c = .ok st1) : st1 = addColumn st c := by
  unfold execAlter at he
  by_cases hd : hasColumn st c = true
  · rw [if_pos hd] at he
    cases he
  · rw [if_neg hd] at he
    exact (Except.ok.inj he).symm

/-- Columns after a successful provisioning loop: the original columns
followed by exactly the keys missing from the snapshot, in input order. -/
theorem provisionLoop_ok_columns (snapshot : List String) (keys : List String)
    (st st' : TableState) (tr : List String)
    (h : provisionLoop snapshot keys st = (tr, .ok st')) :
    st'.columns = st.columns ++ keys.filter (fun k => !snapshot.contains k) := by
  induction keys generalizing st tr with
  | nil =>
    rw [provisionLoop_nil] at h
    simp only [Prod.mk.injEq, Except.ok.injEq] at h
    rw [← h.2]
    simp
  | cons c rest ih =>
    cases hc : snapshot.contains c with
    | true =>
      rw [provisionLoop_cons_skip _ _ _ _ hc] at h
      rw [ih st tr h, List.filter_cons, hc]
      simp
    | false =>
      rcases he : execAlter st c with e | st1
      · rw [provisionLoop_cons_err _ _ _ _ _ hc he] at h
        simp at h
      · rw [provisionLoop_cons_ok _ _ _ _ _ hc he] at h
        rcases hp : provisionLoop snapshot rest st1 with ⟨tr1, res1⟩
        rw [hp] at h
        simp only [Prod.mk.injEq] at h
        rw [h.2] at hp
        have hcol := ih st1 tr1 hp
        rw [hcol, execAlter_ok st st1 c he]
        simp only [addColumn]
        rw [List.filter_cons, hc]
        simp

/-- When every key is already in the snapshot the loop issues no DDL and
leaves the state untouched. -/
theorem provisionLoop_skip_all (snapshot : List String) (keys : List String)
    (st : TableState) (hall : ∀ k ∈ keys, snapshot.contains k = true) :
    provisionLoop snapshot keys st = ([], .ok st) := by
  induction keys with
  | nil => rfl
  | cons c rest ih =>
    rw [provisionLoop_cons_skip _ _ _ _ (hall c (List.mem_cons_self c rest))]
    exact ih (fun k hk => hall k (List.mem_cons_of_mem c hk))

/-! ## Claim theorems -/

/-- C3: if `add_missing_columns` succeeds, every required key is among the
table's columns afterwards (the column set is a superset of the required
keys), and the final column list is exactly the original columns followed
by the keys missing from the original columns — nothing else is added.
(The backtick quoting applied when building the DDL affects only the SQL
text, not the stored column name, so "sanitized" keys coincide with the
raw keys here.) -/
theorem add_missing_columns_superset (st : TableState) (keys : List String)
    (tr : List String) (st' : TableState)
    (h : add_missing_columns st keys = (tr, .ok st')) :
    keys.all (fun k => st'.columns.contains k) = true ∧
    st'.columns = st.columns ++ keys.filter (fun k => !st.columns.contains k) := by
  have hcols := provisionLoop_ok_columns st.columns keys st st' tr h
  refine ⟨?_, hcols⟩
  rw [List.all_eq_true]
  intro k hk
  rw [hcols]
  by_cases hmem : k ∈ st.columns
  · exact List.elem_eq_true_of_mem (List.mem_append_left _ hmem)
  · refine List.elem_eq_true_of_mem (List.mem_append_right _ ?_)
    rw [List.mem_filter]
    refine ⟨hk, ?_⟩
    simpa using hmem

/-- Witness for C3 at a concrete input: a fresh table provisioned with two
new statistic keys. -/
theorem add_missing_columns_superset_witness :
    (["mean_Close", "std_Close"] : List String).all
        (fun k =>
          (TableState.mk ["id", "filename", "timestamp", "mean_Close", "std_Close"]
            []).columns.contains k) = true ∧
    (TableState.mk ["id", "filename", "timestamp", "mean_Close", "std_Close"]
        []).columns =
      freshTable.columns ++
        (["mean_Close", "std_Close"] : List String).filter
          (fun k => !freshTable.columns.contains k) :=
  add_missing_columns_superset freshTable ["mean_Close", "std_Close"]
    [alterStmt "mean_Close", alterStmt "std_Close"]
    (TableState.mk ["id", "filename", "timestamp", "mean_Close", "std_Close"] [])
    (by rfl)

/-- C4: provisioning is idempotent — after a successful run, a second run
with the same keys issues no ALTER statement (empty DDL trace), raises no
error, and leaves the table state (hence its column list) unchanged. -/
theorem add_missing_columns_idempotent (st : TableState) (keys : List String)
    (tr : List String) (st' : TableState)
    (h : add_missing_columns st keys = (tr, .ok st')) :
    add_missing_columns st' keys = ([], .ok st') := by
  apply provisionLoop_skip_all
  intro k hk
  have hcols := provisionLoop_ok_columns st.columns keys st st' tr h
  apply List.elem_eq_true_of_mem
  rw [hcols]
  by_cases hmem : k ∈ st.columns
  · exact List.mem_append_left _ hmem
  · refine List.mem_append_right _ ?_
    rw [List.mem_filter]
    refine ⟨hk, ?_⟩
    simpa using hmem

/-- Witness for C4 at a concrete input: re-provisioning the key
`mean_Close` after it was added is a no-op. -/
theorem add_missing_columns_idempotent_witness :
    add_missing_columns
        (TableState.mk ["id", "filename", "timestamp", "mean_Close"] [])
        ["mean_Close"] =
      ([], .ok (TableState.mk ["id", "filename", "timestamp", "mean_Close"] [])) :=
  add_missing_columns_idempotent freshTable ["mean_Close"] [alterStmt "mean_Close"]
    (TableState.mk ["id", "filename", "timestamp", "mean_Close"] []) (by rfl)

/-- C5: the insert statement's column list is exactly `filename`,
`timestamp`, then the record's stat keys in the order supplied; the bound
parameter list is exactly the filename, the timestamp, then the stat
values; and the SQL text consists of the quoted column names plus one
`%s` placeholder per value — the text is fully determined by the keys and
the value count, so no value is ever string-interpolated into it. -/
theorem insert_summary_parameterized (fn ts : String) (d : List (String × Val)) :
    (insert_summary fn ts d).cols = ["filename", "timestamp"] ++ d.map Prod.fst ∧
    (insert_summary fn ts d).params = [Val.str fn, Val.str ts] ++ d.map Prod.snd ∧
    (insert_summary fn ts d).sql =
      "INSERT INTO summary_imports ("
        ++ joinComma ((["filename", "timestamp"] ++ d.map Prod.fst).map quoteIdent)
        ++ ") VALUES (" ++ joinComma (List.replicate (d.length + 2) "%s") ++ ")" := by
  refine ⟨rfl, rfl, ?_⟩
  have hlen : ([Val.str fn, Val.str ts] ++ d.map Prod.snd).length = d.length + 2 := by
    simp
  show "INSERT INTO summary_imports ("
      ++ joinComma ((["filename", "timestamp"] ++ d.map Prod.fst).map quoteIdent)
      ++ ") VALUES ("
      ++ joinComma (List.replicate ([Val.str fn, Val.str ts] ++ d.map Prod.snd).length "%s")
      ++ ")" = _
  rw [hlen]

/-- C10: parameters are positionally aligned with columns — zipping the
generated column list with the bound parameter list yields exactly
`(filename, fn)`, `(timestamp, ts)` followed by the stat key/value pairs
themselves, because keys and values are enumerated from the mapping in the
same order; and the parameter count equals the column count. -/
theorem insert_summary_positional (fn ts : String) (d : List (String × Val)) :
    (insert_summary fn ts d).cols.zip (insert_summary fn ts d).params =
      ("filename", Val.str fn) :: ("timestamp", Val.str ts) :: d ∧
    (insert_summary fn ts d).params.length = (insert_summary fn ts d).cols.length := by
  constructor
  · have hd : (d.map Prod.fst).zip (d.map Prod.snd) = d :=
      (List.zip_of_prod rfl rfl).symm
    show List.zip ("filename" :: "timestamp" :: d.map Prod.fst)
        (Val.str fn :: Val.str ts :: d.map Prod.snd) = _
    rw [List.zip_cons_cons, List.zip_cons_cons, hd]
  · show (Val.str fn :: Val.str ts :: d.map Prod.snd).length =
      ("filename" :: "timestamp" :: d.map Prod.fst).length
    simp

/-- C9: with an empty stats mapping the writer still succeeds: the
statement has exactly the two fixed columns and two bound parameters, and
executing it against a freshly bootstrapped table inserts exactly one row
carrying only the filename and the timestamp (the `id` column is
auto-generated). -/
theorem insert_summary_empty_stats (fn ts : String) :
    (insert_summary fn ts []).cols = ["filename", "timestamp"] ∧
    (insert_summary fn ts []).params = [Val.str fn, Val.str ts] ∧
    (insert_summary fn ts []).sql =
      "INSERT INTO summary_imports (`filename`, `timestamp`) VALUES (%s, %s)" ∧
    execInsert freshTable (insert_summary fn ts []) =
      .ok (TableState.mk ["id", "filename", "timestamp"]
        [[none, some (Val.str fn), some (Val.str ts)]]) :=
  ⟨rfl, rfl, rfl, rfl⟩

/-- C6: a successful insert appends exactly one new row (built from the
statement's bound parameters) and leaves the column list and every
pre-existing row untouched; nothing conditions on the filename, so a
record whose filename already occurs in the table simply becomes a second
row. -/
theorem execInsert_appends_one_row (st : TableState) (stmt : InsertStmt)
    (st' : TableState) (h : execInsert st stmt = .ok st') :
    st'.columns = st.columns ∧ st'.rows = st.rows ++ [mkRow st.columns stmt] := by
  unfold execInsert at h
  split at h
  · exact Except.noConfusion h
  · split at h
    · exact Except.noConfusion h
    · split at h
      · exact Except.noConfusion h
      · have hst := Except.ok.inj h
        subst hst
        exact ⟨rfl, rfl⟩

/-- Witness for C6 at a concrete input: inserting a record with the same
filename as the table's one existing row appends a second row and leaves
the first row unchanged. -/
theorem execInsert_appends_one_row_witness :
    (TableState.mk ["id", "filename", "timestamp"]
        [[none, some (Val.str "a.csv"), some (Val.str "t1")],
         [none, some (Val.str "a.csv"), some (Val.str "t2")]]).columns =
      (TableState.mk ["id", "filename", "timestamp"]
        [[none, some (Val.str "a.csv"), some (Val.str "t1")]]).columns ∧
    (TableState.mk ["id", "filename", "timestamp"]
        [[none, some (Val.str "a.csv"), some (Val.str "t1")],
         [none, some (Val.str "a.csv"), some (Val.str "t2")]]).rows =
      (TableState.mk ["id", "filename", "timestamp"]
        [[none, some (Val.str "a.csv"), some (Val.str "t1")]]).rows ++
        [mkRow
          (TableState.mk ["id", "filename", "timestamp"]
            [[none, some (Val.str "a.csv"), some (Val.str "t1")]]).columns
          (insert_summary "a.csv" "t2" [])] :=
  execInsert_appends_one_row
    (TableState.mk ["id", "filename", "timestamp"]
      [[none, some (Val.str "a.csv"), some (Val.str "t1")]])
    (insert_summary "a.csv" "t2" [])
    (TableState.mk ["id", "filename", "timestamp"]
      [[none, some (Val.str "a.csv"), some (Val.str "t1")],
       [none, some (Val.str "a.csv"), some (Val.str "t2")]])
    (by rfl)

/-- C1: the code has no sanitizer — `col_safe` merely wraps the raw key in
backticks with no validation and no escaping, so a key containing a
backtick breaks out of the quoted identifier.  At the failing input the
generated DDL is literally the injected text, contains two top-level
semicolons (so it reads as multiple SQL statements), and no
`InvalidIdentifier` failure exists anywhere on the path; a benign key
yields zero top-level semicolons, and the same injection reaches the
insert statement's column list. -/
theorem backtick_key_injects_sql :
    alterStmt "x` FLOAT; DROP TABLE summary_imports; -- " =
      "ALTER TABLE summary_imports ADD COLUMN `x` FLOAT; DROP TABLE summary_imports; -- ` FLOAT" ∧
    countTopSemis (alterStmt "x` FLOAT; DROP TABLE summary_imports; -- ") = 2 ∧
    countTopSemis (alterStmt "mean_Close") = 0 ∧
    countTopSemis
        ((insert_summary "a.csv" "t"
          [("x` ; DROP TABLE summary_imports; -- ", Val.num 1)]).sql) = 2 :=
  ⟨rfl, rfl, rfl, rfl⟩

/-- C2 counterexample: the provisioner does not treat a duplicate-column
DDL failure as success.  Scenario: `SHOW COLUMNS` returned the three fixed
columns, a concurrent writer then added `mean_Close`, and the loop runs
with keys `mean_Close, std_Close`.  The ALTER for `mean_Close` fails with
a duplicate-column error, the error is returned unclassified (no
`SchemaConflict`), and `std_Close` is never provisioned — refuting the
claim that the benign race is recovered and provisioning proceeds. -/
theorem provision_race_counterexample :
    provisionLoop ["id", "filename", "timestamp"] ["mean_Close", "std_Close"]
        (TableState.mk ["id", "filename", "timestamp", "mean_Close"] []) =
      (["ALTER TABLE summary_imports ADD COLUMN `mean_Close` FLOAT"],
       .error (.duplicateColumn "mean_Close")) := rfl

/-- C2 (amended): `add_missing_columns` has no error handling at all — when
a key is absent from the `SHOW COLUMNS` snapshot but a column of that name
already exists in the live table (the concurrent-writer race), the issued
ALTER fails with the store's duplicate-column error, which propagates
uncaught and aborts provisioning of the remaining keys; duplicate-column
failures are not distinguished from any other DDL failure. -/
theorem provision_duplicate_column_error_propagates (snapshot rest : List String)
    (st : TableState) (c : String)
    (hc : snapshot.contains c = false) (hdup : hasColumn st c = true) :
    provisionLoop snapshot (c :: rest) st =
      ([alterStmt c], .error (.duplicateColumn c)) := by
  apply provisionLoop_cons_err _ _ _ _ _ hc
  unfold execAlter
  rw [if_pos hdup]

/-- Witness for the amended C2 at a concrete input. -/
theorem provision_duplicate_column_error_propagates_witness :
    provisionLoop ["id", "filename", "timestamp"] ["count_Value", "mean_Value"]
        (TableState.mk ["id", "filename", "timestamp", "count_Value"] []) =
      ([alterStmt "count_Value"], .error (.duplicateColumn "count_Value")) :=
  provision_duplicate_column_error_propagates ["id", "filename", "timestamp"]
    ["mean_Value"] (TableState.mk ["id", "filename", "timestamp", "count_Value"] [])
    "count_Value" (by rfl) (by rfl)

/-- C7 counterexample: membership of a required key in the existing column
set is NOT decided case-insensitively.  The table already has `Mean_Close`;
the required key `mean_close` differs only in case, yet the code treats it
as missing and issues an ALTER for it, which the store (whose column names
are case-insensitive) rejects as a duplicate — refuting the claim that
column names are normalized to lower case before comparison. -/
theorem provision_case_counterexample :
    add_missing_columns
        (TableState.mk ["id", "filename", "timestamp", "Mean_Close"] [])
        ["mean_close"] =
      (["ALTER TABLE summary_imports ADD COLUMN `mean_close` FLOAT"],
       .error (.duplicateColumn "mean_close")) := rfl

/-- C7 (amended): the provisioning diff compares each required key against
the raw `SHOW COLUMNS` output by exact, case-sensitive string equality,
with no case normalization; a key that is absent under exact comparison
but present case-insensitively is treated as missing, an ALTER is issued
for it, and it fails with a duplicate-column error. -/
theorem provision_membership_case_sensitive (st : TableState) (k : String)
    (hex : st.columns.contains k = false) (hci : hasColumn st k = true) :
    add_missing_columns st [k] = ([alterStmt k], .error (.duplicateColumn k)) := by
  unfold add_missing_columns
  apply provisionLoop_cons_err _ _ _ _ _ hex
  unfold execAlter
  rw [if_pos hci]

/-- Witness for the amended C7 at a concrete input. -/
theorem provision_membership_case_sensitive_witness :
    add_missing_columns
        (TableState.mk ["id", "filename", "timestamp", "MEAN_close"] [])
        ["mean_CLOSE"] =
      ([alterStmt "mean_CLOSE"], .error (.duplicateColumn "mean_CLOSE")) :=
  provision_membership_case_sensitive
    (TableState.mk ["id", "filename", "timestamp", "MEAN_close"] [])
    "mean_CLOSE" (by rfl) (by rfl)

/-- C8 counterexample: non-finite values are flattened, bound, and
inserted.  `df.describe()` of a single-row series has `std = NaN`; the
flattening loop passes it through unchanged (`float(val)` preserves NaN),
`insert_summary` binds it as a parameter, and executing the insert against
the provisioned table persists a row whose `std_Value` cell is NaN —
refuting the claim that a mapping containing a non-finite value is never
inserted. -/
theorem nonfinite_value_inserted :
    flattenSummary [("Value", [("count", Val.num 1), ("std", Val.nan)])] =
      [("count_Value", Val.num 1), ("std_Value", Val.nan)] ∧
    Val.nan ∈ (insert_summary "a.csv" "t"
        [("count_Value", Val.num 1), ("std_Value", Val.nan)]).params ∧
    execInsert
        (TableState.mk ["id", "filename", "timestamp", "count_Value", "std_Value"] [])
        (insert_summary "a.csv" "t"
          [("count_Value", Val.num 1), ("std_Value", Val.nan)]) =
      .ok (TableState.mk
        ["id", "filename", "timestamp", "count_Value", "std_Value"]
        [[none, some (Val.str "a.csv"), some (Val.str "t"),
          some (Val.num 1), some Val.nan]]) :=
  ⟨rfl, by decide, rfl⟩

/-- C8 (amended): neither the flattening loop nor the writer performs any
finiteness check — every stat value, finite or not, is bound as a query
parameter unchanged, so a non-finite value in the mapping appears among
the insert's bound parameters. -/
theorem nonfinite_values_pass_through (fn ts : String) (d : List (String × Val))
    (v : Val) (hv : v ∈ d.map Prod.snd) (_hnf : v.isFinite = false) :
    v ∈ (insert_summary fn ts d).params := by
  show v ∈ Val.str fn :: Val.str ts :: d.map Prod.snd
  exact List.mem_cons_of_mem _ (List.mem_cons_of_mem _ hv)

/-- Witness for the amended C8 at a concrete input. -/
theorem nonfinite_values_pass_through_witness :
    Val.nan ∈ (insert_summary "a.csv" "t" [("std_Value", Val.nan)]).params :=
  nonfinite_values_pass_through "a.csv" "t" [("std_Value", Val.nan)] Val.nan
    (by decide) (by rfl)
